import Mathlib

/-!
Shallow embedding of the YouTube downloader orchestration layer of this
repository (src/downloader.py, src/cli.py): configuration loading,
download-option resolution, format-selector derivation, download
statistics, the progress hook, batch download, video-info queries and
batch-file loading.

Python strings are modelled as `String`; where a library operation does
not evaluate in the kernel we use faithful character-list versions
(`pyStrip`, `pyStartsWith`, `pyLower`).  Python dictionaries with the
fixed key sets used by the code are modelled as structures whose fields
are `Option`-valued: `none` means the key is absent.  Python exceptions
that the code can raise or catch are modelled with `Except PyErr`.
-/

namespace Downloader

/-- Python `str.strip()` (no argument): remove whitespace from both ends. -/
def pyStrip (s : String) : String :=
  String.mk (((s.data.dropWhile Char.isWhitespace).reverse.dropWhile Char.isWhitespace).reverse)

/-- Python `str.startswith(p)`. -/
def pyStartsWith (s p : String) : Bool :=
  p.data.isPrefixOf s.data

/-- Python `str.lower()`. -/
def pyLower (s : String) : String :=
  String.mk (s.data.map Char.toLower)

/-- Python exceptions relevant to the modelled code paths. -/
inductive PyErr where
  | attributeError (attr : String)
  | keyError (key : String)
deriving DecidableEq, Repr

/--
The configuration dictionary (`self.config`).  The code only ever
stores and reads the twelve keys produced by `_get_default_config` and
assumed by `_get_ydl_opts` / `_get_format_selector`; a field holding
`none` models the key being absent from the dictionary (for
`rate_limit`, `none` also covers the stored Python `None`, which the
code treats identically: both are falsy under `self.config.get`).
-/
structure Config where
  default_quality : Option String
  default_format : Option String
  output_directory : Option String
  max_concurrent_downloads : Option Nat
  retry_attempts : Option Int
  timeout : Option Int
  extract_audio : Option Bool
  audio_format : Option String
  download_subtitles : Option Bool
  subtitle_languages : Option (List String)
  filename_template : Option String
  rate_limit : Option String
deriving DecidableEq, Repr

/-- `_get_default_config` (src/downloader.py lines 41-55). -/
def default_config : Config :=
  { default_quality := some "720p"
    default_format := some "mp4"
    output_directory := some "./downloads"
    max_concurrent_downloads := some 3
    retry_attempts := some 3
    timeout := some 30
    extract_audio := some false
    audio_format := some "mp3"
    download_subtitles := some false
    subtitle_languages := some ["en"]
    filename_template := some "%(title)s.%(ext)s"
    rate_limit := none }

/--
The per-call keyword overrides (`**kwargs`) accepted by
`_get_ydl_opts` / `_get_format_selector`; `none` models an absent key.
These are the keys the CLI passes in `download_opts` (src/cli.py lines
233-247).
-/
structure Kwargs where
  quality : Option String
  format : Option String
  extract_audio : Option Bool
  audio_format : Option String
  output_directory : Option String
  filename_template : Option String
  download_subtitles : Option Bool
  subtitle_languages : Option (List String)
  retry_attempts : Option Int
  timeout : Option Int
  rate_limit : Option String
deriving DecidableEq, Repr

/-- Empty keyword-override set (no per-call overrides supplied). -/
def noKwargs : Kwargs :=
  { quality := none, format := none, extract_audio := none, audio_format := none
    output_directory := none, filename_template := none, download_subtitles := none
    subtitle_languages := none, retry_attempts := none, timeout := none
    rate_limit := none }

/--
Python `self.config[key]`: raises `KeyError` when the key is absent.
-/
def cfgGet {α : Type} (v : Option α) (key : String) : Except PyErr α :=
  match v with
  | some x => Except.ok x
  | none => Except.error (PyErr.keyError key)

/--
Python `kwargs.get(key, defaultExpr)`.  The default expression is an
argument of the call, so Python evaluates it eagerly: if it raises, the
exception propagates even when the key is present in `kwargs`.
-/
def dictGet {α : Type} (v : Option α) (d : Except PyErr α) : Except PyErr α :=
  match d with
  | Except.error e => Except.error e
  | Except.ok dv => Except.ok (v.getD dv)

/--
`_get_format_selector` (src/downloader.py lines 100-113).  The call
`quality.replace('p', '')` removes every occurrence of the character
`p`, modelled by filtering the character list.
-/
def getFormatSelector (cfg : Config) (kwargs : Kwargs) : Except PyErr String :=
  match dictGet kwargs.quality (cfgGet cfg.default_quality "default_quality") with
  | Except.error e => Except.error e
  | Except.ok quality =>
    match dictGet kwargs.format (cfgGet cfg.default_format "default_format") with
    | Except.error e => Except.error e
    | Except.ok format_type =>
      match dictGet kwargs.extract_audio (cfgGet cfg.extract_audio "extract_audio") with
      | Except.error e => Except.error e
      | Except.ok ea =>
        if ea then
          Except.ok "bestaudio/best"
        else if quality = "best" then
          Except.ok ("best[ext=" ++ format_type ++ "]/best")
        else if quality = "worst" then
          Except.ok ("worst[ext=" ++ format_type ++ "]/worst")
        else
          Except.ok ("best[height<=" ++ String.mk (quality.data.filter (fun c => c != 'p'))
            ++ "][ext=" ++ format_type ++ "]/best[height<="
            ++ String.mk (quality.data.filter (fun c => c != 'p')) ++ "]/best")

/--
The flattened engine-option dictionary built by `_get_ydl_opts`
(src/downloader.py lines 81-98).  `progress_hooks` is attached by the
callers and is modelled separately (the engine model runs the hook on
its progress events); `ratelimit := none` models the key being absent.
-/
structure YdlOpts where
  format : String
  outtmpl : String
  writesubtitles : Bool
  writeautomaticsub : Bool
  subtitleslangs : List String
  ignoreerrors : Bool
  no_warnings : Bool
  extractaudio : Bool
  audioformat : String
  retries : Int
  socket_timeout : Int
  ratelimit : Option String
deriving DecidableEq, Repr

/--
`str(output_dir / template)`: the path join performed on the output
template.  `pathlib` normalisation of the left component (for example
dropping a leading `./`) is not modelled; no claim concerns the exact
rendered path text.
-/
def pathJoin (dir tmpl : String) : String :=
  dir ++ "/" ++ tmpl

/--
`_get_ydl_opts` (src/downloader.py lines 76-98).  The
`_create_output_directory` filesystem side effect (mkdir) is elided;
only the resolved directory value is kept.  Note that lines 95-96 read
`rate_limit` from `self.config` only — never from `kwargs` — and add
the `ratelimit` key only when that configuration value is truthy (a
non-empty string).
-/
def getYdlOpts (cfg : Config) (kwargs : Kwargs) : Except PyErr YdlOpts :=
  match dictGet kwargs.output_directory (cfgGet cfg.output_directory "output_directory") with
  | Except.error e => Except.error e
  | Except.ok output_dir =>
  match getFormatSelector cfg kwargs with
  | Except.error e => Except.error e
  | Except.ok fmt =>
  match dictGet kwargs.filename_template (cfgGet cfg.filename_template "filename_template") with
  | Except.error e => Except.error e
  | Except.ok tmpl =>
  match dictGet kwargs.download_subtitles (cfgGet cfg.download_subtitles "download_subtitles") with
  | Except.error e => Except.error e
  | Except.ok subs =>
  match dictGet kwargs.subtitle_languages (cfgGet cfg.subtitle_languages "subtitle_languages") with
  | Except.error e => Except.error e
  | Except.ok langs =>
  match dictGet kwargs.extract_audio (cfgGet cfg.extract_audio "extract_audio") with
  | Except.error e => Except.error e
  | Except.ok ea =>
  match dictGet kwargs.audio_format (cfgGet cfg.audio_format "audio_format") with
  | Except.error e => Except.error e
  | Except.ok af =>
  match dictGet kwargs.retry_attempts (cfgGet cfg.retry_attempts "retry_attempts") with
  | Except.error e => Except.error e
  | Except.ok ret =>
  match dictGet kwargs.timeout (cfgGet cfg.timeout "timeout") with
  | Except.error e => Except.error e
  | Except.ok tmo =>
  let base : YdlOpts :=
    { format := fmt
      outtmpl := pathJoin output_dir tmpl
      writesubtitles := subs
      writeautomaticsub := subs
      subtitleslangs := langs
      ignoreerrors := true
      no_warnings := false
      extractaudio := ea
      audioformat := af
      retries := ret
      socket_timeout := tmo
      ratelimit := none }
  match cfg.rate_limit with
  | some r => if r = "" then Except.ok base else Except.ok { base with ratelimit := some r }
  | none => Except.ok base

/--
The configuration file as `_load_config` observes it: either absent on
disk, or present with a suffix (`config_path.suffix`, the extension
with its dot) and a parse outcome.  Reading and parsing the bytes with
`yaml.safe_load` / `json.load` is abstracted to the outcome: either a
parsed dictionary or a raised parse exception's message.
-/
inductive ConfigFile where
  | absent
  | present (suffix : String) (parsed : Except String Config)
deriving Repr

/--
`self.logger.warning(...)` / `self.logger.error(...)` inside
`_load_config`.  `__init__` (src/downloader.py lines 13-15) assigns
`self.config = self._load_config(...)` before `self.logger =
self._setup_logging()`, so during the load `self.logger` does not
exist and attribute lookup raises `AttributeError`.  `loggerInit`
records whether `self.logger` has been assigned.
-/
def loggerLog (loggerInit : Bool) : Except PyErr Unit :=
  if loggerInit then Except.ok () else Except.error (PyErr.attributeError "logger")

/--
`_load_config` (src/downloader.py lines 23-39).  The suffix dispatch
compares `config_path.suffix.lower()` against `.yaml` and `.json`.  A
parse exception is caught by the `except` clause, whose handler calls
`self.logger.error` before returning the defaults; on the unrecognized-
extension branch `self.logger.warning` is called inside the `try`, and
an `AttributeError` it raises is caught by the same `except` clause,
whose `self.logger.error` call then raises again (uncaught).
-/
def load_config (loggerInit : Bool) (file : ConfigFile) : Except PyErr Config :=
  match file with
  | ConfigFile.absent => Except.ok default_config
  | ConfigFile.present suffix parsed =>
    if pyLower suffix = ".yaml" || pyLower suffix = ".json" then
      match parsed with
      | Except.ok c => Except.ok c
      | Except.error _ =>
        match loggerLog loggerInit with
        | Except.ok _ => Except.ok default_config
        | Except.error e => Except.error e
    else
      match loggerLog loggerInit with
      | Except.ok _ =>
        -- warning logged inside the try; then defaults returned
        Except.ok default_config
      | Except.error _ =>
        -- AttributeError from the warning is caught by the except clause,
        -- whose own self.logger.error raises AttributeError again
        match loggerLog loggerInit with
        | Except.ok _ => Except.ok default_config
        | Except.error e => Except.error e

/--
`_load_config` as it is actually invoked: only from `__init__`, where
`self.logger` is not yet assigned.
-/
def init_load_config (file : ConfigFile) : Except PyErr Config :=
  load_config false file

/-- The mutable statistics record `self.download_stats` (src/downloader.py lines 16-21). -/
structure Stats where
  total_downloads : Nat
  successful_downloads : Nat
  failed_downloads : Nat
  total_size : Nat
deriving DecidableEq, Repr

/-- The initial statistics record set up by `__init__`. -/
def initialStats : Stats :=
  { total_downloads := 0, successful_downloads := 0, failed_downloads := 0, total_size := 0 }

/-- `reset_stats` (src/downloader.py lines 205-211). -/
def reset_stats (_s : Stats) : Stats :=
  { total_downloads := 0, successful_downloads := 0, failed_downloads := 0, total_size := 0 }

/--
A status dictionary passed by the engine to `_progress_hook`.
`status` is indexed directly (`d['status']`), so it is a required
field; `filename` is indexed directly only on `finished` events and is
kept as a plain field; `total_bytes` is guarded by an `in` check and
`downloaded_bytes` / `speed` by `.get`, so they are optional.  Byte
counts and speeds reported by the engine are non-negative sizes,
modelled as `Nat`.
-/
structure ProgressEvent where
  status : String
  filename : String
  total_bytes : Option Nat
  downloaded_bytes : Option Nat
  speed : Option Nat
deriving DecidableEq, Repr

/--
`_progress_hook` (src/downloader.py lines 115-135) restricted to its
effect on the statistics record; the `print` progress-line rendering is
a pure output side channel with no effect on state.
-/
def progressHook (stats : Stats) (d : ProgressEvent) : Stats :=
  if d.status = "downloading" then
    stats
  else if d.status = "finished" then
    let s1 := { stats with successful_downloads := stats.successful_downloads + 1 }
    match d.total_bytes with
    | some tb => { s1 with total_size := s1.total_size + tb }
    | none => s1
  else
    stats

/--
One run of the external engine (`ydl.download([url])`): the progress
events it feeds to the attached hook, in order, and `some msg` when it
ends by raising an exception (events already delivered have already
mutated the statistics by then).
-/
structure EngineRun where
  events : List ProgressEvent
  raised : Option String
deriving DecidableEq, Repr

/-- The external engine as an oracle from URL and resolved options to a run. -/
def Engine : Type :=
  String → YdlOpts → EngineRun

/--
`download_single` (src/downloader.py lines 137-153).  Inside the
`try`: log, increment `total_downloads`, build the options (an
exception from `_get_ydl_opts` is caught by the same `except` clause),
run the engine with the hook attached, return `True`; the `except`
clause logs, increments `failed_downloads` and returns `False`.
-/
def download_single (engine : Engine) (cfg : Config) (url : String) (kwargs : Kwargs)
    (stats : Stats) : Bool × Stats :=
  let stats1 := { stats with total_downloads := stats.total_downloads + 1 }
  match getYdlOpts cfg kwargs with
  | Except.error _ =>
    (false, { stats1 with failed_downloads := stats1.failed_downloads + 1 })
  | Except.ok opts =>
    let run := engine url opts
    let stats2 := run.events.foldl progressHook stats1
    match run.raised with
    | some _ => (false, { stats2 with failed_downloads := stats2.failed_downloads + 1 })
    | none => (true, stats2)

/--
Python dictionary assignment `results[url] = v`: update the value in
place when the key exists (keeping its original position), append
otherwise.
-/
def dictInsert (l : List (String × Bool)) (k : String) (v : Bool) : List (String × Bool) :=
  match l with
  | [] => [(k, v)]
  | (k', v') :: rest =>
    if k' = k then (k, v) :: rest else (k', v') :: dictInsert rest k v

/-- The loop of `download_batch`, threading the results dictionary and the statistics. -/
def download_batch_go (engine : Engine) (cfg : Config) (kwargs : Kwargs) :
    List String → List (String × Bool) → Stats → List (String × Bool) × Stats
  | [], results, stats => (results, stats)
  | url :: rest, results, stats =>
    download_batch_go engine cfg kwargs rest
      (dictInsert results url (download_single engine cfg url kwargs stats).1)
      (download_single engine cfg url kwargs stats).2

/-- `download_batch` (src/downloader.py lines 155-165). -/
def download_batch (engine : Engine) (cfg : Config) (kwargs : Kwargs) (urls : List String)
    (stats : Stats) : List (String × Bool) × Stats :=
  download_batch_go engine cfg kwargs urls [] stats

/--
`download_playlist` (src/downloader.py lines 167-181).  Unlike
`download_single` it touches no counter directly; only the progress
hook mutates the statistics, and the `except` clause merely logs and
returns `False`.
-/
def download_playlist (engine : Engine) (cfg : Config) (url : String) (kwargs : Kwargs)
    (stats : Stats) : Bool × Stats :=
  match getYdlOpts cfg kwargs with
  | Except.error _ => (false, stats)
  | Except.ok opts =>
    let run := engine url opts
    let stats2 := run.events.foldl progressHook stats
    match run.raised with
    | some _ => (false, stats2)
    | none => (true, stats2)

/--
A format dictionary inside the engine's info dictionary.
`get_video_info` indexes `f['format_id']` and `f['ext']` directly and
reads `f.get('height')`, so the first two are required fields and the
height is optional.
-/
structure FormatDict where
  format_id : String
  ext : String
  height : Option Nat
deriving DecidableEq, Repr

/--
The info dictionary returned by `ydl.extract_info(url, download=False)`;
every field that `get_video_info` reads with `.get` is optional.
-/
structure InfoDict where
  title : Option String
  uploader : Option String
  duration : Option Nat
  view_count : Option Nat
  upload_date : Option String
  description : Option String
  formats : List FormatDict
deriving DecidableEq, Repr

/-- The normalized snapshot dictionary built by `get_video_info`. -/
structure VideoInfo where
  title : Option String
  uploader : Option String
  duration : Option Nat
  view_count : Option Nat
  upload_date : Option String
  description : Option String
  formats : List FormatDict
deriving DecidableEq, Repr

/--
The engine's metadata extraction as an oracle from URL to either an
info dictionary or a raised exception's message.
-/
def InfoEngine : Type :=
  String → Except String InfoDict

/--
`get_video_info` (src/downloader.py lines 183-200).  On the success
path, `info.get('description', '')[:200] + '...' if
info.get('description') else None` yields the 200-character prefix of
the description with an appended ellipsis marker when the description
is present and non-empty (Python truthiness), and `None` otherwise;
the `except` clause logs and returns `None`.
-/
def get_video_info (extract : InfoEngine) (url : String) : Option VideoInfo :=
  match extract url with
  | Except.error _ => none
  | Except.ok info =>
    some
      { title := info.title
        uploader := info.uploader
        duration := info.duration
        view_count := info.view_count
        upload_date := info.upload_date
        description :=
          match info.description with
          | some d => if d = "" then none else some (d.take 200 ++ "...")
          | none => none
        formats := info.formats.map (fun f =>
          { format_id := f.format_id, ext := f.ext, height := f.height }) }

/--
`load_batch_urls` (src/cli.py lines 164-174) applied to the file's
lines: the comprehension
`[line.strip() for line in f if line.strip() and not line.startswith('#')]`
keeps a line when its stripped form is non-empty (Python truthiness)
and the raw line does not start with `#`, and yields the stripped
form.  Iterating the file handle yields the lines (with their
terminators, which `strip` removes and which do not affect the `#`
prefix test); the fatal error paths for an unreadable file are outside
the per-line logic modelled here.
-/
def load_batch_urls : List String → List String
  | [] => []
  | line :: rest =>
    if pyStrip line != "" && !(pyStartsWith line "#") then
      pyStrip line :: load_batch_urls rest
    else
      load_batch_urls rest

/--
A heap of statistics dictionaries, indexed by reference.  Python
dictionaries are mutable heap objects; `self.download_stats.copy()`
allocates a fresh dictionary.  The heap lets the embedding state that
the copy returned by `get_download_stats` is detached from the
orchestrator's own record.
-/
structure Heap where
  cells : List Stats
deriving DecidableEq, Repr

/-- Read the dictionary at a reference (out-of-range reads never arise in the model's use). -/
def Heap.read (h : Heap) (r : Nat) : Stats :=
  h.cells.getD r initialStats

/-- Overwrite the dictionary at a reference: a caller mutating a record it holds. -/
def Heap.write (h : Heap) (r : Nat) (s : Stats) : Heap :=
  { cells := h.cells.set r s }

/-- Allocate a fresh dictionary holding the given contents; returns its reference. -/
def Heap.alloc (h : Heap) (s : Stats) : Heap × Nat :=
  ({ cells := h.cells ++ [s] }, h.cells.length)

/--
`get_download_stats` (src/downloader.py lines 202-203):
`return self.download_stats.copy()` — read the orchestrator's record at
`selfRef` and allocate a fresh dictionary with equal contents.
-/
def get_download_stats (h : Heap) (selfRef : Nat) : Heap × Nat :=
  Heap.alloc h (h.read selfRef)

/-- Componentwise order on statistics records: no counter decreases. -/
def Stats.le (a b : Stats) : Prop :=
  a.total_downloads ≤ b.total_downloads ∧
  a.successful_downloads ≤ b.successful_downloads ∧
  a.failed_downloads ≤ b.failed_downloads ∧
  a.total_size ≤ b.total_size

lemma Stats.le_refl (a : Stats) : a.le a :=
  ⟨Nat.le_refl _, Nat.le_refl _, Nat.le_refl _, Nat.le_refl _⟩

lemma Stats.le_trans {a b c : Stats} (hab : a.le b) (hbc : b.le c) : a.le c :=
  ⟨Nat.le_trans hab.1 hbc.1, Nat.le_trans hab.2.1 hbc.2.1,
   Nat.le_trans hab.2.2.1 hbc.2.2.1, Nat.le_trans hab.2.2.2 hbc.2.2.2⟩

lemma progressHook_le (s : Stats) (d : ProgressEvent) : s.le (progressHook s d) := by
  unfold progressHook
  split
  · exact Stats.le_refl s
  · split
    · rcases d.total_bytes with _ | tb
      · exact ⟨Nat.le_refl _, Nat.le_succ _, Nat.le_refl _, Nat.le_refl _⟩
      · exact ⟨Nat.le_refl _, Nat.le_succ _, Nat.le_refl _, Nat.le_add_right _ _⟩
    · exact Stats.le_refl s

lemma progressHook_total (s : Stats) (d : ProgressEvent) :
    (progressHook s d).total_downloads = s.total_downloads := by
  unfold progressHook
  split
  · rfl
  · split
    · rcases d.total_bytes with _ | tb <;> rfl
    · rfl

lemma progressHook_failed (s : Stats) (d : ProgressEvent) :
    (progressHook s d).failed_downloads = s.failed_downloads := by
  unfold progressHook
  split
  · rfl
  · split
    · rcases d.total_bytes with _ | tb <;> rfl
    · rfl

lemma foldl_progressHook_le (es : List ProgressEvent) (s : Stats) :
    s.le (es.foldl progressHook s) := by
  induction es generalizing s with
  | nil => exact Stats.le_refl s
  | cons d rest ih =>
    exact Stats.le_trans (progressHook_le s d) (ih (progressHook s d))

lemma foldl_progressHook_total (es : List ProgressEvent) (s : Stats) :
    (es.foldl progressHook s).total_downloads = s.total_downloads := by
  induction es generalizing s with
  | nil => rfl
  | cons d rest ih =>
    rw [List.foldl_cons, ih (progressHook s d), progressHook_total]

lemma foldl_progressHook_failed (es : List ProgressEvent) (s : Stats) :
    (es.foldl progressHook s).failed_downloads = s.failed_downloads := by
  induction es generalizing s with
  | nil => rfl
  | cons d rest ih =>
    rw [List.foldl_cons, ih (progressHook s d), progressHook_failed]

lemma download_single_le (engine : Engine) (cfg : Config) (url : String) (kwargs : Kwargs)
    (stats : Stats) : stats.le (download_single engine cfg url kwargs stats).2 := by
  unfold download_single
  rcases hopts : getYdlOpts cfg kwargs with e | opts <;> simp only [hopts]
  · exact ⟨Nat.le_succ _, Nat.le_refl _, Nat.le_succ _, Nat.le_refl _⟩
  · have h1 : stats.le { stats with total_downloads := stats.total_downloads + 1 } :=
      ⟨Nat.le_succ _, Nat.le_refl _, Nat.le_refl _, Nat.le_refl _⟩
    have h2 := foldl_progressHook_le (engine url opts).events
      { stats with total_downloads := stats.total_downloads + 1 }
    rcases hr : (engine url opts).raised with _ | msg <;> simp only [hr]
    · exact Stats.le_trans h1 h2
    · refine Stats.le_trans (Stats.le_trans h1 h2) ?_
      exact ⟨Nat.le_refl _, Nat.le_refl _, Nat.le_succ _, Nat.le_refl _⟩

lemma download_single_total (engine : Engine) (cfg : Config) (url : String) (kwargs : Kwargs)
    (stats : Stats) :
    (download_single engine cfg url kwargs stats).2.total_downloads
      = stats.total_downloads + 1 := by
  unfold download_single
  rcases hopts : getYdlOpts cfg kwargs with e | opts
  · simp only [hopts]
  · simp only [hopts]
    rcases hr : (engine url opts).raised with _ | msg <;>
      simp [hr, foldl_progressHook_total]

/--
C7: Every counter of the Download Statistics record (total downloads,
successful downloads, failed downloads, cumulative size) never
decreases under any statistics-mutating operation — the progress hook,
single download, batch download and playlist download — except the
explicit reset, and `reset_stats` sets all four counters to zero
regardless of their prior values.
-/
theorem stats_monotone_and_reset :
    (∀ (s : Stats) (d : ProgressEvent), s.le (progressHook s d)) ∧
    (∀ (engine : Engine) (cfg : Config) (url : String) (kwargs : Kwargs) (s : Stats),
      s.le (download_single engine cfg url kwargs s).2) ∧
    (∀ (engine : Engine) (cfg : Config) (kwargs : Kwargs) (urls : List String) (s : Stats),
      s.le (download_batch engine cfg kwargs urls s).2) ∧
    (∀ (engine : Engine) (cfg : Config) (url : String) (kwargs : Kwargs) (s : Stats),
      s.le (download_playlist engine cfg url kwargs s).2) ∧
    (∀ s : Stats, reset_stats s =
      { total_downloads := 0, successful_downloads := 0, failed_downloads := 0
        total_size := 0 }) := by
  refine ⟨progressHook_le, download_single_le, ?_, ?_, fun _ => rfl⟩
  · intro engine cfg kwargs urls s
    unfold download_batch
    suffices h : ∀ (urls : List String) (results : List (String × Bool)) (s : Stats),
        s.le (download_batch_go engine cfg kwargs urls results s).2 by
      exact h urls [] s
    intro urls
    induction urls with
    | nil => exact fun _ s => Stats.le_refl s
    | cons u rest ih =>
      intro results s
      exact Stats.le_trans (download_single_le engine cfg u kwargs s)
        (ih _ (download_single engine cfg u kwargs s).2)
  · intro engine cfg url kwargs s
    unfold download_playlist
    rcases hopts : getYdlOpts cfg kwargs with e | opts <;> simp only [hopts]
    · exact Stats.le_refl s
    · rcases hr : (engine url opts).raised with _ | msg <;> simp only [hr]
      · exact foldl_progressHook_le (engine url opts).events s
      · exact foldl_progressHook_le (engine url opts).events s

lemma download_single_raised (engine : Engine) (cfg : Config) (url : String) (kwargs : Kwargs)
    (stats : Stats) (opts : YdlOpts) (hopts : getYdlOpts cfg kwargs = Except.ok opts) :
    (download_single engine cfg url kwargs stats).1 = (engine url opts).raised.isNone := by
  unfold download_single
  simp only [hopts]
  rcases hr : (engine url opts).raised with _ | msg <;> simp [hr]

lemma download_single_failed (engine : Engine) (cfg : Config) (url : String) (kwargs : Kwargs)
    (stats : Stats) (opts : YdlOpts) (hopts : getYdlOpts cfg kwargs = Except.ok opts) :
    (download_single engine cfg url kwargs stats).2.failed_downloads
      = stats.failed_downloads + (if (engine url opts).raised.isSome then 1 else 0) := by
  unfold download_single
  simp only [hopts]
  rcases hr : (engine url opts).raised with _ | msg <;>
    simp [hr, foldl_progressHook_failed]

/--
C4: For every URL and resolved options, `download_single` increments
the total-attempts counter by exactly one per call, and on any
exception raised by the external engine it increments the failure
counter by exactly one and returns `false`, never propagating the
exception to the caller (its return type is a plain boolean paired
with the updated statistics); absent such an exception it returns
`true`.  The logging calls are pure output side channels and are not
modelled.
-/
theorem download_single_spec (engine : Engine) (cfg : Config) (url : String) (kwargs : Kwargs)
    (stats : Stats) (opts : YdlOpts) (hopts : getYdlOpts cfg kwargs = Except.ok opts) :
    (download_single engine cfg url kwargs stats).2.total_downloads
        = stats.total_downloads + 1 ∧
    (download_single engine cfg url kwargs stats).1 = (engine url opts).raised.isNone ∧
    (download_single engine cfg url kwargs stats).2.failed_downloads
        = stats.failed_downloads + (if (engine url opts).raised.isSome then 1 else 0) :=
  ⟨download_single_total engine cfg url kwargs stats,
   download_single_raised engine cfg url kwargs stats opts hopts,
   download_single_failed engine cfg url kwargs stats opts hopts⟩

/-- A concrete engine run that always raises. -/
def engineFail : Engine :=
  fun _ _ => { events := [], raised := some "network error" }

/-- A concrete engine run that always succeeds without progress events. -/
def engineOk : Engine :=
  fun _ _ => { events := [], raised := none }

/-- The options `_get_ydl_opts` resolves from the default configuration with no overrides. -/
def defaultOpts : YdlOpts :=
  { format := "best[height<=720][ext=mp4]/best[height<=720]/best"
    outtmpl := "./downloads/%(title)s.%(ext)s"
    writesubtitles := false
    writeautomaticsub := false
    subtitleslangs := ["en"]
    ignoreerrors := true
    no_warnings := false
    extractaudio := false
    audioformat := "mp3"
    retries := 3
    socket_timeout := 30
    ratelimit := none }

/--
C4 witness: at the default configuration with no overrides, a raising
engine yields `false` with the total and failure counters incremented
once, and a succeeding engine yields `true`.
-/
theorem download_single_spec_witness :
    (download_single engineFail default_config "u" noKwargs initialStats).1 = false ∧
    (download_single engineFail default_config "u" noKwargs initialStats).2.total_downloads = 1 ∧
    (download_single engineFail default_config "u" noKwargs initialStats).2.failed_downloads = 1 ∧
    (download_single engineOk default_config "u" noKwargs initialStats).1 = true := by
  have hfail := download_single_spec engineFail default_config "u" noKwargs initialStats
    defaultOpts rfl
  have hok := download_single_spec engineOk default_config "u" noKwargs initialStats
    defaultOpts rfl
  refine ⟨?_, ?_, ?_, ?_⟩
  · rw [hfail.2.1]; rfl
  · rw [hfail.1]; rfl
  · rw [hfail.2.2]; rfl
  · rw [hok.2.1]; rfl

lemma dictInsert_of_not_mem (l : List (String × Bool)) (k : String) (v : Bool)
    (h : k ∉ l.map Prod.fst) : dictInsert l k v = l ++ [(k, v)] := by
  induction l with
  | nil => rfl
  | cons p rest ih =>
    simp only [List.map_cons, List.mem_cons] at h
    push_neg at h
    unfold dictInsert
    rw [if_neg (fun hk => h.1 hk.symm), ih h.2]
    rfl

lemma download_batch_go_results (engine : Engine) (cfg : Config) (kwargs : Kwargs)
    (opts : YdlOpts) (hopts : getYdlOpts cfg kwargs = Except.ok opts) :
    ∀ (urls : List String) (results : List (String × Bool)) (stats : Stats),
      urls.Nodup → (∀ u ∈ urls, u ∉ results.map Prod.fst) →
      (download_batch_go engine cfg kwargs urls results stats).1
        = results ++ urls.map (fun u => (u, (engine u opts).raised.isNone)) := by
  intro urls
  induction urls with
  | nil => intro results stats _ _; simp [download_batch_go]
  | cons u rest ih =>
    intro results stats hnd hdisj
    unfold download_batch_go
    rw [download_single_raised engine cfg u kwargs stats opts hopts]
    rw [dictInsert_of_not_mem results u _ (hdisj u (List.mem_cons_self u rest))]
    rw [ih (results ++ [(u, (engine u opts).raised.isNone)]) _
      (List.Nodup.of_cons hnd) ?_]
    · simp
    · intro x hx
      simp only [List.map_append, List.mem_append, List.map_cons, List.map_nil,
        List.mem_singleton]
      rintro (hx1 | hx2)
      · exact hdisj x (List.mem_cons_of_mem u hx) hx1
      · exact (List.nodup_cons.mp hnd).1 (hx2 ▸ hx)

lemma download_batch_go_total (engine : Engine) (cfg : Config) (kwargs : Kwargs) :
    ∀ (urls : List String) (results : List (String × Bool)) (stats : Stats),
      (download_batch_go engine cfg kwargs urls results stats).2.total_downloads
        = stats.total_downloads + urls.length := by
  intro urls
  induction urls with
  | nil => intro results stats; rfl
  | cons u rest ih =>
    intro results stats
    unfold download_batch_go
    rw [ih _ _, download_single_total]
    simp [List.length_cons]
    omega

lemma download_batch_go_failed (engine : Engine) (cfg : Config) (kwargs : Kwargs)
    (opts : YdlOpts) (hopts : getYdlOpts cfg kwargs = Except.ok opts) :
    ∀ (urls : List String) (results : List (String × Bool)) (stats : Stats),
      (download_batch_go engine cfg kwargs urls results stats).2.failed_downloads
        = stats.failed_downloads
            + (urls.filter (fun u => (engine u opts).raised.isSome)).length := by
  intro urls
  induction urls with
  | nil => intro results stats; rfl
  | cons u rest ih =>
    intro results stats
    unfold download_batch_go
    rw [ih _ _, download_single_failed engine cfg u kwargs stats opts hopts]
    by_cases hu : (engine u opts).raised.isSome
    all_goals simp [hu]
    all_goals omega

/--
C5 counterexample: the claim promises, for every ordered sequence of N
URLs, a result mapping with exactly N entries; but `download_batch`
accumulates results in a dictionary keyed by URL, so the duplicate
list `["u", "u"]` (N = 2) produces a mapping with a single entry,
while the statistics still count two attempts and two failures.
-/
theorem download_batch_duplicate_counterexample :
    (download_batch engineFail default_config noKwargs ["u", "u"] initialStats).1.length = 1 ∧
    ¬ (download_batch engineFail default_config noKwargs ["u", "u"] initialStats).1.length = 2 ∧
    (download_batch engineFail default_config noKwargs ["u", "u"] initialStats).2.total_downloads
        = 2 := by
  exact ⟨rfl, by decide, rfl⟩

/--
C5 (amended to pairwise-distinct URLs): for every ordered sequence of
N pairwise-distinct URLs, `download_batch` produces the mapping that
pairs each URL, in input order, with the success of its own engine
call — so it has exactly N entries and its false-valued entries are
exactly the failing URLs — while the statistics' total-count increases
by N and the failed-count increases by the number of failing URLs.
Sequential per-URL invocation with no early termination is reflected
in the mapping covering every URL of the input in order.
-/
theorem download_batch_spec (engine : Engine) (cfg : Config) (kwargs : Kwargs)
    (urls : List String) (stats : Stats) (opts : YdlOpts)
    (hopts : getYdlOpts cfg kwargs = Except.ok opts) (hnd : urls.Nodup) :
    (download_batch engine cfg kwargs urls stats).1
        = urls.map (fun u => (u, (engine u opts).raised.isNone)) ∧
    (download_batch engine cfg kwargs urls stats).1.length = urls.length ∧
    (∀ u b, (u, b) ∈ (download_batch engine cfg kwargs urls stats).1 →
        (b = false ↔ (engine u opts).raised.isSome)) ∧
    (download_batch engine cfg kwargs urls stats).2.total_downloads
        = stats.total_downloads + urls.length ∧
    (download_batch engine cfg kwargs urls stats).2.failed_downloads
        = stats.failed_downloads
            + (urls.filter (fun u => (engine u opts).raised.isSome)).length := by
  have hres := download_batch_go_results engine cfg kwargs opts hopts urls [] stats hnd
    (by intro x hx; simp)
  have hres' : (download_batch engine cfg kwargs urls stats).1
      = urls.map (fun u => (u, (engine u opts).raised.isNone)) := by
    unfold download_batch; rw [hres]; rfl
  refine ⟨hres', by rw [hres']; simp, ?_, download_batch_go_total engine cfg kwargs urls [] stats,
    download_batch_go_failed engine cfg kwargs opts hopts urls [] stats⟩
  intro u b hmem
  rw [hres'] at hmem
  simp only [List.mem_map] at hmem
  obtain ⟨x, hxmem, hx⟩ := hmem
  simp only [Prod.mk.injEq] at hx
  obtain ⟨hx1, hx2⟩ := hx
  subst hx1
  rw [← hx2]
  cases hraised : (engine x opts).raised <;> simp [hraised]

/--
C5 witness: two distinct URLs where the engine fails on exactly the
first yield the mapping `[("a", false), ("b", true)]`, two total
attempts and one failure.
-/
theorem download_batch_spec_witness :
    (download_batch (fun url _ => if url = "a" then { events := [], raised := some "boom" }
        else { events := [], raised := none }) default_config noKwargs ["a", "b"]
        initialStats).1 = [("a", false), ("b", true)] ∧
    (download_batch (fun url _ => if url = "a" then { events := [], raised := some "boom" }
        else { events := [], raised := none }) default_config noKwargs ["a", "b"]
        initialStats).2.total_downloads = 2 ∧
    (download_batch (fun url _ => if url = "a" then { events := [], raised := some "boom" }
        else { events := [], raised := none }) default_config noKwargs ["a", "b"]
        initialStats).2.failed_downloads = 1 := by
  have h := download_batch_spec
    (fun url _ => if url = "a" then { events := [], raised := some "boom" }
      else { events := [], raised := none })
    default_config noKwargs ["a", "b"] initialStats defaultOpts rfl (by decide)
  refine ⟨?_, ?_, ?_⟩
  · rw [h.1]; rfl
  · rw [h.2.2.2.1]; rfl
  · rw [h.2.2.2.2]; rfl

/--
C1: the claim says every missing, unparsable or unrecognized-extension
configuration path yields the built-in default record without an
exception.  The missing-file path does return the defaults, but
`__init__` assigns `self.logger` only after `self.config =
self._load_config(...)`, so on the parse-failure and
unrecognized-extension paths the fallback's logging call raises
`AttributeError`, which escapes `_load_config` — the code contradicts
the recovery its own `try/except` fallback was written to provide.
The last conjunct shows the intended recovery does work whenever the
logger attribute exists.
-/
theorem load_config_fallback_raises :
    init_load_config (ConfigFile.present ".txt" (Except.ok default_config))
        = Except.error (PyErr.attributeError "logger") ∧
    init_load_config (ConfigFile.present ".yaml" (Except.error "while parsing a block mapping"))
        = Except.error (PyErr.attributeError "logger") ∧
    init_load_config ConfigFile.absent = Except.ok default_config ∧
    load_config true (ConfigFile.present ".txt" (Except.ok default_config))
        = Except.ok default_config ∧
    load_config true (ConfigFile.present ".yaml" (Except.error "while parsing a block mapping"))
        = Except.ok default_config :=
  ⟨rfl, rfl, rfl, rfl, rfl⟩

/-- A parsed configuration that omits the recognized key `default_quality`. -/
def cfg_no_quality : Config :=
  { default_config with default_quality := none }

/--
C9: a successfully parsed configuration is used verbatim — no built-in
defaults are merged in — and with `default_quality` omitted, option
resolution raises `KeyError('default_quality')`.  Because Python
evaluates the default argument of `kwargs.get('quality',
self.config['default_quality'])` eagerly, the lookup raises even when
a `quality` override is supplied.
-/
theorem parsed_config_verbatim :
    init_load_config (ConfigFile.present ".yaml" (Except.ok cfg_no_quality))
        = Except.ok cfg_no_quality ∧
    cfg_no_quality ≠ default_config ∧
    getFormatSelector cfg_no_quality noKwargs
        = Except.error (PyErr.keyError "default_quality") ∧
    getFormatSelector cfg_no_quality { noKwargs with quality := some "1080p" }
        = Except.error (PyErr.keyError "default_quality") ∧
    getYdlOpts cfg_no_quality { noKwargs with quality := some "1080p" }
        = Except.error (PyErr.keyError "default_quality") :=
  ⟨rfl, by decide, rfl, rfl, rfl⟩

/--
C2 counterexample: a per-call `rate_limit` override of `"1M"` is
supplied while the configuration has no rate limit, yet the flattened
engine-option record carries no `ratelimit` value — `_get_ydl_opts`
reads `rate_limit` from `self.config` only, so the override named by
the claim is ignored.
-/
theorem rate_limit_override_ignored :
    ({ noKwargs with rate_limit := some "1M" } : Kwargs).rate_limit = some "1M" ∧
    (getYdlOpts default_config { noKwargs with rate_limit := some "1M" }).map YdlOpts.ratelimit
        = Except.ok none :=
  ⟨rfl, rfl⟩

/--
The branch logic of `_get_format_selector` on the already-resolved
quality, container format and audio flag; used to state resolved-value
characterizations of the selector.
-/
def selectorOf (quality format_type : String) (ea : Bool) : String :=
  if ea then
    "bestaudio/best"
  else if quality = "best" then
    "best[ext=" ++ format_type ++ "]/best"
  else if quality = "worst" then
    "worst[ext=" ++ format_type ++ "]/worst"
  else
    "best[height<=" ++ String.mk (quality.data.filter (fun c => c != 'p')) ++ "][ext="
      ++ format_type ++ "]/best[height<=" ++ String.mk (quality.data.filter (fun c => c != 'p'))
      ++ "]/best"

lemma getFormatSelector_resolved (dq df : String) (ea : Bool) (od : Option String)
    (mcd : Option Nat) (ra tmo : Option Int) (af ft rl : Option String)
    (ds : Option Bool) (sl : Option (List String)) (kw : Kwargs) :
    getFormatSelector
      { default_quality := some dq, default_format := some df, output_directory := od
        max_concurrent_downloads := mcd, retry_attempts := ra, timeout := tmo
        extract_audio := some ea, audio_format := af, download_subtitles := ds
        subtitle_languages := sl, filename_template := ft, rate_limit := rl } kw
      = Except.ok (selectorOf (kw.quality.getD dq) (kw.format.getD df)
          (kw.extract_audio.getD ea)) := by
  unfold getFormatSelector selectorOf dictGet cfgGet
  obtain ⟨q, f, b, _, _, _, _, _, _, _, _⟩ := kw
  rcases q with _ | q <;> rcases f with _ | f <;> rcases b with _ | b <;>
    (dsimp only; split_ifs <;> rfl)

/--
C3: whenever the resolved audio-extraction flag is true the selector is
`bestaudio/best` regardless of quality and format; for resolved quality
`best` with container F it is `best[ext=F]/best`; and at quality
`480p` with format `webm` it is exactly
`best[height<=480][ext=webm]/best[height<=480]/best`, with the
fallback order format+height, height-only, unconstrained preserved in
the rendered string.
-/
theorem format_selector_spec :
    (∀ (cfg : Config) (kw : Kwargs) (q F : String),
      dictGet kw.quality (cfgGet cfg.default_quality "default_quality") = Except.ok q →
      dictGet kw.format (cfgGet cfg.default_format "default_format") = Except.ok F →
      dictGet kw.extract_audio (cfgGet cfg.extract_audio "extract_audio") = Except.ok true →
      getFormatSelector cfg kw = Except.ok "bestaudio/best") ∧
    (∀ (cfg : Config) (kw : Kwargs) (F : String),
      dictGet kw.quality (cfgGet cfg.default_quality "default_quality") = Except.ok "best" →
      dictGet kw.format (cfgGet cfg.default_format "default_format") = Except.ok F →
      dictGet kw.extract_audio (cfgGet cfg.extract_audio "extract_audio") = Except.ok false →
      getFormatSelector cfg kw = Except.ok ("best[ext=" ++ F ++ "]/best")) ∧
    getFormatSelector default_config { noKwargs with quality := some "480p", format := some "webm" }
        = Except.ok "best[height<=480][ext=webm]/best[height<=480]/best" := by
  refine ⟨?_, ?_, rfl⟩
  · intro cfg kw q F hq hf hea
    unfold getFormatSelector
    rw [hq, hf, hea]
    rfl
  · intro cfg kw F hq hf hea
    unfold getFormatSelector
    rw [hq, hf, hea]
    rfl

/--
C3 witness: at the default configuration, an audio-extraction override
gives `bestaudio/best`, and a `best`-quality override with the default
`mp4` container gives `best[ext=mp4]/best`.
-/
theorem format_selector_spec_witness :
    getFormatSelector default_config { noKwargs with extract_audio := some true }
        = Except.ok "bestaudio/best" ∧
    getFormatSelector default_config { noKwargs with quality := some "best" }
        = Except.ok "best[ext=mp4]/best" :=
  ⟨format_selector_spec.1 default_config { noKwargs with extract_audio := some true }
     "720p" "mp4" rfl rfl rfl,
   format_selector_spec.2.1 default_config { noKwargs with quality := some "best" } "mp4"
     rfl rfl rfl⟩

/-- A configuration carrying every key the option resolver reads (the
shape produced by `_get_default_config` or a complete parsed file),
with arbitrary values. -/
def completeConfig (dq df od : String) (mcd : Option Nat) (ra tmo : Int) (ea : Bool)
    (af : String) (ds : Bool) (sl : List String) (ft : String) (rl : Option String) : Config :=
  { default_quality := some dq, default_format := some df, output_directory := some od
    max_concurrent_downloads := mcd, retry_attempts := some ra, timeout := some tmo
    extract_audio := some ea, audio_format := some af, download_subtitles := some ds
    subtitle_languages := some sl, filename_template := some ft, rate_limit := rl }

/--
C2 (amended): for every configuration carrying all recognized keys and
every set of per-call overrides, each recognized key of the flattened
engine-option record takes the override value when present and falls
back to the configuration value when absent — for every key except
`rate_limit`: the `ratelimit` entry is computed from the
configuration's `rate_limit` alone (present exactly when that value is
a non-empty string), and a per-call `rate_limit` override is ignored.
-/
theorem ydl_opts_override_precedence (dq df od : String) (mcd : Option Nat) (ra tmo : Int)
    (ea : Bool) (af : String) (ds : Bool) (sl : List String) (ft : String)
    (rl : Option String) (kw : Kwargs) :
    ∃ fsel, getFormatSelector (completeConfig dq df od mcd ra tmo ea af ds sl ft rl) kw
        = Except.ok fsel ∧
      getYdlOpts (completeConfig dq df od mcd ra tmo ea af ds sl ft rl) kw
        = Except.ok
          { format := fsel
            outtmpl := pathJoin (kw.output_directory.getD od) (kw.filename_template.getD ft)
            writesubtitles := kw.download_subtitles.getD ds
            writeautomaticsub := kw.download_subtitles.getD ds
            subtitleslangs := kw.subtitle_languages.getD sl
            ignoreerrors := true
            no_warnings := false
            extractaudio := kw.extract_audio.getD ea
            audioformat := kw.audio_format.getD af
            retries := kw.retry_attempts.getD ra
            socket_timeout := kw.timeout.getD tmo
            ratelimit :=
              match rl with
              | some r => if r = "" then none else some r
              | none => none } := by
  have hsel := getFormatSelector_resolved dq df ea (some od) mcd (some ra) (some tmo)
    (some af) (some ft) rl (some ds) (some sl) kw
  refine ⟨selectorOf (kw.quality.getD dq) (kw.format.getD df) (kw.extract_audio.getD ea),
    hsel, ?_⟩
  unfold getYdlOpts
  simp only [completeConfig]
  rw [hsel]
  rcases rl with _ | r
  · rfl
  · by_cases hr : r = "" <;> simp only [hr, if_true, if_false, reduceIte] <;> rfl

/--
C6: for every URL, the video-info query returns `none` — never an
exception — whenever the extraction engine fails, and on success
returns a snapshot whose description is the 200-character prefix of
the engine's description with an appended ellipsis marker whenever a
(non-empty, hence Python-truthy) description is present, and no
description otherwise.
-/
theorem get_video_info_spec :
    (∀ (extract : InfoEngine) (url msg : String), extract url = Except.error msg →
        get_video_info extract url = none) ∧
    (∀ (extract : InfoEngine) (url : String) (info : InfoDict), extract url = Except.ok info →
        ∃ v, get_video_info extract url = some v ∧
          (∀ d, info.description = some d → d ≠ "" →
              v.description = some (d.take 200 ++ "...")) ∧
          ((info.description = none ∨ info.description = some "") →
              v.description = none)) := by
  constructor
  · intro extract url msg h
    unfold get_video_info
    rw [h]
  · intro extract url info h
    refine ⟨_, by unfold get_video_info; rw [h], ?_, ?_⟩
    · intro d hd hne
      simp only [hd]
      simp [hne]
    · rintro (hd | hd) <;> simp [hd]

/-- A metadata extraction that always raises. -/
def extractFail : InfoEngine :=
  fun _ => Except.error "HTTP Error 404: Not Found"

/-- A concrete info dictionary carrying a non-empty description. -/
def infoSample : InfoDict :=
  { title := some "Title", uploader := some "Uploader", duration := some 10
    view_count := some 5, upload_date := some "20240101"
    description := some "A short description", formats := [] }

/-- A metadata extraction that always succeeds with `infoSample`. -/
def extractOk : InfoEngine :=
  fun _ => Except.ok infoSample

/--
C6 witness: a failing engine yields `none`; a succeeding engine with a
non-empty description yields a snapshot with the truncated,
ellipsis-marked description.
-/
theorem get_video_info_spec_witness :
    get_video_info extractFail "u" = none ∧
    (∃ v, get_video_info extractOk "u" = some v ∧
        v.description = some ("A short description".take 200 ++ "...")) := by
  constructor
  · exact get_video_info_spec.1 extractFail "u" "HTTP Error 404: Not Found" rfl
  · obtain ⟨v, hv, htrunc, _⟩ := get_video_info_spec.2 extractOk "u" infoSample rfl
    exact ⟨v, hv, htrunc "A short description" rfl (by decide)⟩

/--
C8: batch-file loading keeps exactly the lines whose stripped form is
non-empty and that do not begin with `#`, in their original relative
order (the result is the stripped image of an order-preserving
sublist of the input lines).
-/
theorem load_batch_urls_spec (lines : List String) :
    load_batch_urls lines
        = (lines.filter (fun l => pyStrip l != "" && !(pyStartsWith l "#"))).map pyStrip ∧
    (load_batch_urls lines).Sublist (lines.map pyStrip) := by
  have h1 : ∀ ls : List String, load_batch_urls ls
      = (ls.filter (fun l => pyStrip l != "" && !(pyStartsWith l "#"))).map pyStrip := by
    intro ls
    induction ls with
    | nil => rfl
    | cons l rest ih =>
      unfold load_batch_urls
      by_cases hc : (pyStrip l != "" && !(pyStartsWith l "#")) = true
      · simp [List.filter_cons, hc, ih]
      · simp [List.filter_cons, hc, ih]
  refine ⟨h1 lines, ?_⟩
  rw [h1 lines]
  exact (List.filter_sublist lines).map pyStrip

/--
C10: reading the download statistics returns a detached copy — the
read leaves the orchestrator's record unchanged, the returned
reference is distinct from the orchestrator's own, and overwriting the
returned copy with any record leaves the orchestrator's record
unchanged.
-/
theorem get_download_stats_detached (h : Heap) (selfRef : Nat)
    (hval : selfRef < h.cells.length) :
    (get_download_stats h selfRef).1.read selfRef = h.read selfRef ∧
    (get_download_stats h selfRef).2 ≠ selfRef ∧
    (∀ s', ((get_download_stats h selfRef).1.write (get_download_stats h selfRef).2 s').read
        selfRef = h.read selfRef) := by
  refine ⟨?_, ?_, ?_⟩
  · show (h.cells ++ [h.read selfRef]).getD selfRef initialStats
      = h.cells.getD selfRef initialStats
    exact List.getD_append _ _ _ _ hval
  · exact Nat.ne_of_gt hval
  · intro s'
    show ((h.cells ++ [h.read selfRef]).set h.cells.length s').getD selfRef initialStats
      = h.cells.getD selfRef initialStats
    rw [List.getD_eq_getElem?_getD, List.getElem?_set_ne (Nat.ne_of_gt hval),
      ← List.getD_eq_getElem?_getD]
    exact List.getD_append _ _ _ _ hval

/-- A sample statistics record with non-zero counters. -/
def statsSample : Stats :=
  { total_downloads := 4, successful_downloads := 2, failed_downloads := 2, total_size := 100 }

/-- A one-cell heap holding the orchestrator's record at reference 0. -/
def heapSample : Heap :=
  { cells := [statsSample] }

/--
C10 witness: on a one-cell heap holding the orchestrator's record at
reference 0, the copy is detached and mutating it leaves the record
unchanged.
-/
theorem get_download_stats_detached_witness :
    (get_download_stats heapSample 0).1.read 0 = statsSample ∧
    (get_download_stats heapSample 0).2 ≠ 0 ∧
    ((get_download_stats heapSample 0).1.write (get_download_stats heapSample 0).2
        initialStats).read 0 = statsSample := by
  have hd := get_download_stats_detached heapSample 0 (by decide)
  have hread : heapSample.read 0 = statsSample := rfl
  exact ⟨hread ▸ hd.1, hd.2.1, hread ▸ hd.2.2 initialStats⟩

end Downloader
